import Mathlib

/-!
Verification of the polygon overlap-resolution engine and feature store of
the `project-map-app` repository (React/TypeScript, Turf.js geometry).

The TypeScript source is shallowly embedded:
* the Turf.js geometry library is external to the repository, so it is
  abstracted as a `TurfKernel` structure of primitive operations, each of
  which may throw (modelled with `Except Unit`) or return `null`
  (modelled with `Option`);
* the adapter functions of `src/utils/geometry.ts`
  (`circleToPolygon`, `getFeatureAsPolygon`, `checkFeaturesOverlap`,
  `isFullyEnclosed`, `trimPolygon`, `validateAndTrimFeature`) and the
  Zustand store actions of `src/store/mapStore.ts` are translated
  statement by statement;
* JavaScript truthiness is modelled explicitly: a missing property is
  `none`, and a numeric `radius` is truthy iff present and nonzero;
* object reference inequality `currentPolygon !== newPolygon` at the end
  of `validateAndTrimFeature` is modelled by a boolean flag that records
  whether at least one trim step executed (turf.difference always
  allocates a fresh feature object, so the two are equivalent);
* `uuidv4()` and `new Date().toISOString()` are modelled as explicit
  `freshId` / `now` arguments to `addFeature`.

A concrete kernel instance (`discreteKernel`, finite sets of integer
cells, intersection / non-strict subset / set difference) is used for
witnesses and counterexamples; it conforms to the adapter contract of the
specification (non-strict containment, overlap = non-empty intersection).
-/

/-- Shape kinds of the application (`ShapeType` in `types.ts`). -/
inductive ShapeType where
  | polygon
  | rectangle
  | circle
  | linestring
deriving DecidableEq, Repr

/-- GeoJSON geometry of a feature.  The engine only ever distinguishes
`Polygon`/`MultiPolygon` geometries (both carried here by `polygonal`,
with the polygonal payload abstracted as `R`) from everything else; the
other constructors record the geometry types the app actually produces
(`Point` for circles, `LineString` for lines). -/
inductive Geometry (R : Type) where
  | polygonal (region : R)
  | pointGeom
  | lineStringGeom
  | otherGeom
deriving DecidableEq, Repr

/-- `FeatureProperties` of `types.ts`: `id`, `shapeType`, `createdAt`,
optional `name`, and for circles optional `center`/`radius`. -/
structure FeatureProperties where
  id : Nat
  shapeType : ShapeType
  createdAt : Nat
  name : Option String
  radius : Option Nat
  center : Option (Int × Int)
deriving DecidableEq, Repr

/-- `MapFeature` of `types.ts` (the constant GeoJSON type tag is
omitted). -/
structure MapFeature (R : Type) where
  geometry : Geometry R
  properties : FeatureProperties
deriving DecidableEq, Repr

/-- `OverlapValidationResult` of `types.ts`. -/
structure OverlapValidationResult (R : Type) where
  isValid : Bool
  error : Option String
  trimmedFeature : Option (MapFeature R)
deriving DecidableEq, Repr

/-- The primitive Turf.js operations used by `geometry.ts`, abstracted:
each call may throw (`Except.error ()`) and `intersect`/`difference`
may return `null` (`none`).  `circle` stands for the whole call
`turf.circle` with `radiusMeters / 1000`, 64 steps, kilometer units. -/
structure TurfKernel (R : Type) where
  intersect : R → R → Except Unit (Option R)
  booleanContains : R → R → Except Unit Bool
  difference : R → R → Except Unit (Option R)
  circle : (Int × Int) → Nat → R

/-- `circleToPolygon` of `geometry.ts`. -/
def circleToPolygon {R : Type} (K : TurfKernel R) (center : Int × Int)
    (radiusMeters : Nat) : R :=
  K.circle center radiusMeters

/-- Helper for the final branch of `getFeatureAsPolygon`: the feature is
returned as a polygon exactly when its geometry type is `Polygon` or
`MultiPolygon`. -/
def geomAsPolygon {R : Type} : Geometry R → Option R
  | Geometry.polygonal r => some r
  | _ => none

/-- `getFeatureAsPolygon` of `geometry.ts`.  The circle branch guards on
JS truthiness of `feature.properties.center && feature.properties.radius`:
both present and `radius ≠ 0`. -/
def getFeatureAsPolygon {R : Type} (K : TurfKernel R) (f : MapFeature R) :
    Option R :=
  if f.properties.shapeType = ShapeType.linestring then none
  else
    match f.properties.shapeType, f.properties.center, f.properties.radius with
    | ShapeType.circle, some c, some r =>
        if r ≠ 0 then some (circleToPolygon K c r)
        else geomAsPolygon f.geometry
    | _, _, _ => geomAsPolygon f.geometry

/-- `checkFeaturesOverlap` of `geometry.ts`: a thrown intersection is
normalized to `false`, a `null` intersection is no overlap. -/
def checkFeaturesOverlap {R : Type} (K : TurfKernel R) (a b : R) : Bool :=
  match K.intersect a b with
  | Except.ok r => r.isSome
  | Except.error _ => false

/-- `isFullyEnclosed` of `geometry.ts`:
`isFullyEnclosed(inner, outer) = turf.booleanContains(outer, inner)`,
with a thrown call normalized to `false`. -/
def isFullyEnclosed {R : Type} (K : TurfKernel R) (innerF outerF : R) : Bool :=
  match K.booleanContains outerF innerF with
  | Except.ok b => b
  | Except.error _ => false

/-- `trimPolygon` of `geometry.ts`: `turf.difference`, with a thrown call
normalized to `null` — the same value a genuinely empty difference
returns. -/
def trimPolygon {R : Type} (K : TurfKernel R) (newP existingP : R) : Option R :=
  match K.difference newP existingP with
  | Except.ok r => r
  | Except.error _ => none

/-- Error message of the encloses-existing rejection. -/
def enclosesMsg : String :=
  "Cannot create a shape that fully encloses an existing shape"

/-- Error message of the enclosed-by-existing rejection. -/
def enclosedByMsg : String :=
  "Cannot create a shape that is fully enclosed by an existing shape"

/-- Error message of the fully-consumed rejection. -/
def consumedMsg : String :=
  "Shape would be completely consumed by overlap trimming"

/-- The `{ isValid: true }` result (no error, no trimmed feature). -/
def validResult (R : Type) : OverlapValidationResult R :=
  { isValid := true, error := none, trimmedFeature := none }

/-- An `{ isValid: false, error: msg }` result. -/
def invalidResult (R : Type) (msg : String) : OverlapValidationResult R :=
  { isValid := false, error := some msg, trimmedFeature := none }

/-- The list the loop of `validateAndTrimFeature` iterates over: existing
features with line strings filtered out, each mapped through
`getFeatureAsPolygon`, keeping the non-null polygons. -/
def existingPolygonsOf {R : Type} (K : TurfKernel R)
    (fs : List (MapFeature R)) : List R :=
  (fs.filter (fun f => f.properties.shapeType ≠ ShapeType.linestring)).filterMap
    (getFeatureAsPolygon K)

/-- The `for` loop of `validateAndTrimFeature`, as a recursion over the
remaining existing polygons.  The state is the current (possibly already
trimmed) polygon and a flag recording whether any trim step has executed
(this flag is the reference inequality `currentPolygon !== newPolygon`).
An early `return` of the loop body is an `Except.error` carrying the
rejection result. -/
def runTrimLoop {R : Type} (K : TurfKernel R) (current : R) (trimmed : Bool) :
    List R → Except (OverlapValidationResult R) (R × Bool)
  | [] => Except.ok (current, trimmed)
  | e :: rest =>
    if checkFeaturesOverlap K current e = false then
      runTrimLoop K current trimmed rest
    else if isFullyEnclosed K e current then
      Except.error (invalidResult R enclosesMsg)
    else if isFullyEnclosed K current e then
      Except.error (invalidResult R enclosedByMsg)
    else
      match trimPolygon K current e with
      | none => Except.error (invalidResult R consumedMsg)
      | some t => runTrimLoop K t true rest

/-- `validateAndTrimFeature` of `geometry.ts`. -/
def validateAndTrimFeature {R : Type} (K : TurfKernel R)
    (newFeature : MapFeature R) (existingFeatures : List (MapFeature R)) :
    OverlapValidationResult R :=
  if newFeature.properties.shapeType = ShapeType.linestring then validResult R
  else
    match getFeatureAsPolygon K newFeature with
    | none => validResult R
    | some newPolygon =>
      match runTrimLoop K newPolygon false
          (existingPolygonsOf K existingFeatures) with
      | Except.error res => res
      | Except.ok (current, trimmed) =>
        if trimmed then
          { isValid := true, error := none,
            trimmedFeature :=
              some { newFeature with geometry := Geometry.polygonal current } }
        else validResult R

/-- `ShapeLimitsConfig` of `types.ts`: maximum concurrently-held count per
shape kind. -/
structure ShapeLimitsConfig where
  polygon : Nat
  rectangle : Nat
  circle : Nat
  linestring : Nat
deriving DecidableEq, Repr

/-- `DEFAULT_SHAPE_LIMITS` of `config/shapeConfig.ts`. -/
def DEFAULT_SHAPE_LIMITS : ShapeLimitsConfig :=
  { polygon := 10, rectangle := 10, circle := 5, linestring := 20 }

/-- `ShapeCountsState` of `types.ts`. -/
structure ShapeCountsState where
  polygon : Nat
  rectangle : Nat
  circle : Nat
  linestring : Nat
deriving DecidableEq, Repr

/-- Indexed access `counts[shapeType]`. -/
def countFor (c : ShapeCountsState) : ShapeType → Nat
  | ShapeType.polygon => c.polygon
  | ShapeType.rectangle => c.rectangle
  | ShapeType.circle => c.circle
  | ShapeType.linestring => c.linestring

/-- Indexed access `limits[shapeType]`. -/
def limitFor (l : ShapeLimitsConfig) : ShapeType → Nat
  | ShapeType.polygon => l.polygon
  | ShapeType.rectangle => l.rectangle
  | ShapeType.circle => l.circle
  | ShapeType.linestring => l.linestring

/-- The string the UI uses for each shape kind (the TS string-literal
values of `ShapeType`). -/
def shapeTypeName : ShapeType → String
  | ShapeType.polygon => "polygon"
  | ShapeType.rectangle => "rectangle"
  | ShapeType.circle => "circle"
  | ShapeType.linestring => "linestring"

/-- The Zustand store state of `mapStore.ts` (actions are modelled below
as functions on this state). -/
structure MapState (R : Type) where
  features : List (MapFeature R)
  drawingMode : Option ShapeType
  shapeLimits : ShapeLimitsConfig
  errorMessage : Option String
  successMessage : Option String
deriving DecidableEq, Repr

/-- The initial store state (`features: [], drawingMode: null, ...`). -/
def initState (R : Type) : MapState R :=
  { features := [], drawingMode := none,
    shapeLimits := DEFAULT_SHAPE_LIMITS,
    errorMessage := none, successMessage := none }

/-- `getShapeCounts` of `mapStore.ts`, as a function of the feature list. -/
def getShapeCountsOf {R : Type} (fs : List (MapFeature R)) : ShapeCountsState :=
  { polygon :=
      (fs.filter (fun f => f.properties.shapeType = ShapeType.polygon)).length,
    rectangle :=
      (fs.filter (fun f => f.properties.shapeType = ShapeType.rectangle)).length,
    circle :=
      (fs.filter (fun f => f.properties.shapeType = ShapeType.circle)).length,
    linestring :=
      (fs.filter (fun f => f.properties.shapeType = ShapeType.linestring)).length }

/-- `getShapeCounts` store action. -/
def getShapeCounts {R : Type} (s : MapState R) : ShapeCountsState :=
  getShapeCountsOf s.features

/-- `isShapeLimitReached` of `mapStore.ts`:
`counts[shapeType] >= limits[shapeType]`. -/
def isShapeLimitReached {R : Type} (s : MapState R) (t : ShapeType) : Bool :=
  limitFor s.shapeLimits t ≤ countFor (getShapeCounts s) t

/-- The limit error message
`Maximum ${limit} ${shapeType}s reached`. -/
def limitMsg {R : Type} (s : MapState R) (t : ShapeType) : String :=
  "Maximum " ++ toString (limitFor s.shapeLimits t) ++ " " ++
    shapeTypeName t ++ "s reached"

/-- The payload `addFeature` receives: a `MapFeature` minus the
store-assigned `id` and `createdAt` properties. -/
structure FeatureData (R : Type) where
  geometry : Geometry R
  shapeType : ShapeType
  name : Option String
  radius : Option Nat
  center : Option (Int × Int)
deriving DecidableEq, Repr

/-- The feature `addFeature` builds from its payload: fresh `id` (uuid)
and `createdAt` (timestamp) are explicit arguments of the model. -/
def buildNewFeature {R : Type} (d : FeatureData R) (freshId now : Nat) :
    MapFeature R :=
  { geometry := d.geometry,
    properties :=
      { id := freshId, shapeType := d.shapeType, createdAt := now,
        name := d.name, radius := d.radius, center := d.center } }

/-- `addFeature` of `mapStore.ts`.  Returns the new state and the boolean
the action returns.  the `error` fallback to the fixed invalid-feature text and
`validationResult.trimmedFeature || newFeature` are the JS fallbacks. -/
def addFeature {R : Type} (K : TurfKernel R) (s : MapState R)
    (d : FeatureData R) (freshId now : Nat) : MapState R × Bool :=
  if isShapeLimitReached s d.shapeType then
    ({ s with errorMessage := some (limitMsg s d.shapeType) }, false)
  else
    let newFeature := buildNewFeature d freshId now
    let vr := validateAndTrimFeature K newFeature s.features
    if vr.isValid = false then
      ({ s with errorMessage := some (vr.error.getD "Invalid feature") }, false)
    else
      let featureToAdd := vr.trimmedFeature.getD newFeature
      ({ s with
          features := s.features ++ [featureToAdd],
          drawingMode := none,
          errorMessage := none,
          successMessage :=
            some (if vr.trimmedFeature.isSome then
                    "Shape auto-trimmed to avoid overlap"
                  else shapeTypeName d.shapeType ++ " added successfully") },
        true)

/-- `removeFeature` of `mapStore.ts`. -/
def removeFeature {R : Type} (s : MapState R) (idv : Nat) : MapState R :=
  { s with
      features := s.features.filter (fun f => f.properties.id ≠ idv),
      successMessage := some "Feature removed" }

/-- `Partial<MapFeature>` as `updateFeature` receives it: the top-level
fields that may be present in the `updates` object. -/
structure MapFeatureUpdate (R : Type) where
  geometry : Option (Geometry R)
  properties : Option FeatureProperties
deriving DecidableEq, Repr

/-- The JS spread `{ ...f, ...updates }`: a top-level field present in
`updates` replaces the whole corresponding field of `f`. -/
def applyUpdate {R : Type} (f : MapFeature R) (u : MapFeatureUpdate R) :
    MapFeature R :=
  { geometry := u.geometry.getD f.geometry,
    properties := u.properties.getD f.properties }

/-- `updateFeature` of `mapStore.ts`. -/
def updateFeature {R : Type} (s : MapState R) (idv : Nat)
    (u : MapFeatureUpdate R) : MapState R :=
  { s with
      features := s.features.map (fun f =>
        if f.properties.id = idv then applyUpdate f u else f) }

/-- `clearAllFeatures` of `mapStore.ts`. -/
def clearAllFeatures {R : Type} (s : MapState R) : MapState R :=
  { s with features := [], successMessage := some "All features cleared" }

/-- `setDrawingMode` of `mapStore.ts` (JS truthiness: the limit check only
runs when `mode` is non-null). -/
def setDrawingMode {R : Type} (s : MapState R) (mode : Option ShapeType) :
    MapState R :=
  match mode with
  | some m =>
    if isShapeLimitReached s m then
      { s with errorMessage := some (limitMsg s m), drawingMode := none }
    else
      { s with drawingMode := some m, errorMessage := none }
  | none => { s with drawingMode := none, errorMessage := none }

/-- `exportGeoJSON` of `mapStore.ts`, restricted to its effect on the
store state (the file download itself is I/O outside the state). -/
def exportGeoJSON {R : Type} (s : MapState R) : MapState R :=
  if s.features.length = 0 then
    { s with errorMessage := some "No features to export" }
  else
    { s with
        successMessage :=
          some ("Exported " ++ toString s.features.length ++ " features") }

/-- `clearError` of `mapStore.ts`. -/
def clearError {R : Type} (s : MapState R) : MapState R :=
  { s with errorMessage := none }

/-- `clearSuccess` of `mapStore.ts`. -/
def clearSuccess {R : Type} (s : MapState R) : MapState R :=
  { s with successMessage := none }

/-- `Partial<ShapeLimitsConfig>` for `updateShapeLimits`. -/
structure ShapeLimitsUpdate where
  polygon : Option Nat
  rectangle : Option Nat
  circle : Option Nat
  linestring : Option Nat
deriving DecidableEq, Repr

/-- `updateShapeLimits` of `mapStore.ts`: `{ ...state.shapeLimits, ...limits }`. -/
def updateShapeLimits {R : Type} (s : MapState R) (u : ShapeLimitsUpdate) :
    MapState R :=
  { s with shapeLimits :=
      { polygon := u.polygon.getD s.shapeLimits.polygon,
        rectangle := u.rectangle.getD s.shapeLimits.rectangle,
        circle := u.circle.getD s.shapeLimits.circle,
        linestring := u.linestring.getD s.shapeLimits.linestring } }

/-- Intersection of two regions represented as lists of integer cells. -/
def cellsIntersect (a b : List Int) : List Int :=
  a.filter (fun x => b.contains x)

/-- Non-strict inclusion of cell regions (every cell of `a` lies in `b`). -/
def cellsSubset (a b : List Int) : Bool :=
  a.all (fun x => b.contains x)

/-- Set difference of cell regions. -/
def cellsDiff (a b : List Int) : List Int :=
  a.filter (fun x => !(b.contains x))

/-- A concrete geometry kernel on finite sets of integer cells, conforming
to the adapter contract of the specification: overlap is non-empty
intersection, containment is non-strict inclusion (as Turf.js
`booleanContains` is non-strict on identical regions), difference is set
difference with `null` for an empty result, and no operation throws.
This is the `intersect` operation. -/
def dkIntersect (a b : List Int) : Except Unit (Option (List Int)) :=
  Except.ok (if (cellsIntersect a b).isEmpty then none
             else some (cellsIntersect a b))

/-- `booleanContains` of `discreteKernel`: non-strict inclusion, never
throws. -/
def dkContains (outer inner : List Int) : Except Unit Bool :=
  Except.ok (cellsSubset inner outer)

/-- `difference` of `discreteKernel`: set difference, `null` when empty,
never throws. -/
def dkDiff (a b : List Int) : Except Unit (Option (List Int)) :=
  Except.ok (if (cellsDiff a b).isEmpty then none
             else some (cellsDiff a b))

/-- The conforming discrete kernel assembled from the operations above. -/
def discreteKernel : TurfKernel (List Int) :=
  { intersect := dkIntersect,
    booleanContains := dkContains,
    difference := dkDiff,
    circle := fun c _ => [c.1] }

/-- Like `discreteKernel`, but every `difference` call throws — a model of
a kernel whose subtraction fails on degenerate input. -/
def failDiffKernel : TurfKernel (List Int) :=
  { discreteKernel with difference := fun _ _ => Except.error () }

/-- Like `discreteKernel`, but every `difference` call returns `null` — a
model of a subtraction whose result is empty. -/
def emptyDiffKernel : TurfKernel (List Int) :=
  { discreteKernel with difference := fun _ _ => Except.ok none }

/-- A polygon-kind feature whose geometry is the polygonal region `g`. -/
def polyFeature {R : Type} (idv : Nat) (g : R) : MapFeature R :=
  { geometry := Geometry.polygonal g,
    properties :=
      { id := idv, shapeType := ShapeType.polygon, createdAt := 0,
        name := none, radius := none, center := none } }

/-- An `addFeature` payload proposing a polygon with region `g`. -/
def polyData {R : Type} (g : R) : FeatureData R :=
  { geometry := Geometry.polygonal g, shapeType := ShapeType.polygon,
    name := none, radius := none, center := none }

/-- A store state with default limits holding the given features. -/
def stateWithFeatures {R : Type} (fs : List (MapFeature R)) : MapState R :=
  { initState R with features := fs }

/-- The limits-all-zero configuration, used to exercise the limit-reached
path. -/
def zeroLimits : ShapeLimitsConfig :=
  { polygon := 0, rectangle := 0, circle := 0, linestring := 0 }

/-- An empty store whose limits are all zero. -/
def zeroState : MapState (List Int) :=
  { initState (List Int) with shapeLimits := zeroLimits }

/-- A line-string feature (geometry of GeoJSON type `LineString`). -/
def lineFeature (idv : Nat) : MapFeature (List Int) :=
  { geometry := Geometry.lineStringGeom,
    properties :=
      { id := idv, shapeType := ShapeType.linestring, createdAt := 0,
        name := none, radius := none, center := none } }

/-- Any rejected `addFeature` call (return value `false`) leaves the
feature list untouched: both the limit branch and the invalid-validation
branch return the state with only `errorMessage` changed. -/
theorem addFeature_rejected_features {R : Type} (K : TurfKernel R)
    (s : MapState R) (d : FeatureData R) (freshId now : Nat)
    (h : (addFeature K s d freshId now).2 = false) :
    (addFeature K s d freshId now).1.features = s.features := by
  by_cases hl : isShapeLimitReached s d.shapeType = true
  · simp [addFeature, hl]
  · by_cases hv :
      (validateAndTrimFeature K (buildNewFeature d freshId now)
        s.features).isValid = false
    · simp [addFeature, hl, hv]
    · exfalso
      simp [addFeature, hl, hv] at h

/-- Claim C4: whenever `addFeature` returns a rejection (the limit error
or any engine rejection — exactly the cases in which the action returns
`false`), the feature collection after the call equals the feature
collection before the call: no partial state is committed. -/
theorem claim_C4 {R : Type} (K : TurfKernel R) (s : MapState R)
    (d : FeatureData R) (freshId now : Nat)
    (h : (addFeature K s d freshId now).2 = false) :
    (addFeature K s d freshId now).1.features = s.features :=
  addFeature_rejected_features K s d freshId now h

/-- Witness for C4: with all limits zero, adding a polygon is rejected
and the (empty) collection is unchanged. -/
theorem claim_C4_witness :
    (addFeature discreteKernel zeroState (polyData [0]) 1 0).2 = false ∧
    (addFeature discreteKernel zeroState (polyData [0]) 1 0).1.features
      = zeroState.features :=
  ⟨rfl, claim_C4 discreteKernel zeroState (polyData [0]) 1 0 rfl⟩

/-- Claim C5: if the count of the candidate kind is at or above its
limit, `addFeature` fails with the limit-reached error, the collection is
unchanged, and the overlap engine is not invoked — the outcome is
independent of the geometry kernel. -/
theorem claim_C5 {R : Type} (K K' : TurfKernel R) (s : MapState R)
    (d : FeatureData R) (freshId now : Nat)
    (h : isShapeLimitReached s d.shapeType = true) :
    addFeature K s d freshId now
      = ({ s with errorMessage := some (limitMsg s d.shapeType) }, false) ∧
    (addFeature K s d freshId now).1.features = s.features ∧
    addFeature K' s d freshId now = addFeature K s d freshId now := by
  refine ⟨by simp [addFeature, h], ?_, by simp [addFeature, h]⟩
  simp [addFeature, h]

/-- Witness for C5: the zero-limit store rejects a polygon identically
under two different kernels. -/
theorem claim_C5_witness :
    addFeature discreteKernel zeroState (polyData [0]) 1 0
      = ({ zeroState with
            errorMessage := some (limitMsg zeroState ShapeType.polygon) },
         false) ∧
    (addFeature discreteKernel zeroState (polyData [0]) 1 0).1.features
      = zeroState.features ∧
    addFeature failDiffKernel zeroState (polyData [0]) 1 0
      = addFeature discreteKernel zeroState (polyData [0]) 1 0 :=
  claim_C5 discreteKernel failDiffKernel zeroState (polyData [0]) 1 0 rfl

/-- Claim C6: a line-string candidate is returned valid, untrimmed,
immediately — the result is the constant `{ isValid: true }` for every
kernel and every existing collection, so no existing shape is consulted. -/
theorem claim_C6 {R : Type} (K : TurfKernel R) (f : MapFeature R)
    (fs : List (MapFeature R))
    (h : f.properties.shapeType = ShapeType.linestring) :
    validateAndTrimFeature K f fs = validResult R := by
  simp [validateAndTrimFeature, h]

/-- Witness for C6: a line string over a collection whose polygon covers
the whole extent of the line is still accepted unchanged. -/
theorem claim_C6_witness :
    validateAndTrimFeature discreteKernel (lineFeature 5)
      [polyFeature 1 [0, 1, 2]] = validResult (List Int) :=
  claim_C6 discreteKernel (lineFeature 5) [polyFeature 1 [0, 1, 2]] rfl

/-- Counterexample to claim C1: with the conforming discrete kernel, the
candidate region `[0]` overlaps the existing region `[0, 1]` and the
existing region contains the candidate (`contains(existingRegion,
current)` in the adapter signature), yet the outcome is the
enclosed-by-existing rejection, not the encloses-existing one the claim
names. -/
theorem claim_C1_counterexample :
    dkContains [0, 1] [0] = Except.ok true ∧
    checkFeaturesOverlap discreteKernel [0] [0, 1] = true ∧
    validateAndTrimFeature discreteKernel (polyFeature 2 [0])
        [polyFeature 1 [0, 1]]
      = invalidResult (List Int) enclosedByMsg ∧
    invalidResult (List Int) enclosedByMsg
      ≠ invalidResult (List Int) enclosesMsg := by
  refine ⟨rfl, rfl, rfl, ?_⟩
  decide

/-- Claim C1 as amended: at any iteration of the trim loop where the
current candidate overlaps the existing region, if the current region
contains the existing one the outcome is the encloses-existing rejection,
and if it does not while the existing region contains the current one the
outcome is the enclosed-by-existing rejection (the converse of what the
claim stated). -/
theorem claim_C1_amended {R : Type} (K : TurfKernel R) (current e : R)
    (flag : Bool) (rest : List R)
    (hov : checkFeaturesOverlap K current e = true) :
    (isFullyEnclosed K e current = true →
      runTrimLoop K current flag (e :: rest)
        = Except.error (invalidResult R enclosesMsg)) ∧
    (isFullyEnclosed K e current = false →
      isFullyEnclosed K current e = true →
      runTrimLoop K current flag (e :: rest)
        = Except.error (invalidResult R enclosedByMsg)) := by
  constructor
  · intro h1
    simp [runTrimLoop, hov, h1]
  · intro h1 h2
    simp [runTrimLoop, hov, h1, h2]

/-- Witness for the amended C1 at the discrete kernel: existing `[0, 1]`
strictly contains the candidate `[0]`, and the loop rejects with the
enclosed-by-existing result. -/
theorem claim_C1_amended_witness :
    runTrimLoop discreteKernel [0] false [[0, 1]]
      = Except.error (invalidResult (List Int) enclosedByMsg) :=
  (claim_C1_amended discreteKernel [0] [0, 1] false [] rfl).2 rfl rfl

/-- Counterexample to claim C2: with the conforming (non-strict) discrete
kernel and identical regions `A = B = [0]`, the region of A fully contains
the region of B (`booleanContains` is `true`), B is the only accepted shape — yet
proposing B over existing A yields the encloses-existing rejection, not
the enclosed-by-existing one the claim requires for that direction. -/
theorem claim_C2_counterexample :
    dkContains [0] [0] = Except.ok true ∧
    validateAndTrimFeature discreteKernel (polyFeature 2 [0])
        [polyFeature 1 [0]]
      = invalidResult (List Int) enclosesMsg ∧
    invalidResult (List Int) enclosesMsg
      ≠ invalidResult (List Int) enclosedByMsg := by
  refine ⟨rfl, rfl, ?_⟩
  decide

/-- `validateAndTrimFeature` on a polygon-kind candidate reduces to the
trim loop over the existing polygons (the line-string and null-polygon
early returns do not fire). -/
theorem validateAndTrim_poly {R : Type} (K : TurfKernel R) (idv : Nat)
    (g : R) (fs : List (MapFeature R)) :
    validateAndTrimFeature K (polyFeature idv g) fs
      = match runTrimLoop K g false (existingPolygonsOf K fs) with
        | Except.error res => res
        | Except.ok (current, trimmed) =>
          if trimmed then
            { isValid := true, error := none,
              trimmedFeature := some { polyFeature idv g with
                                        geometry := Geometry.polygonal current } }
          else validResult R := rfl

/-- A single existing polygon-kind feature contributes exactly its region
to the list of the loop. -/
theorem existingPolygons_single {R : Type} (K : TurfKernel R) (idv : Nat)
    (g : R) : existingPolygonsOf K [polyFeature idv g] = [g] := rfl

/-- When the limit is not reached and the engine rejects with message
`msg`, `addFeature` surfaces that message and returns `false`, leaving the
state otherwise untouched. -/
theorem addFeature_invalid {R : Type} (K : TurfKernel R) (s : MapState R)
    (d : FeatureData R) (freshId now : Nat) (msg : String)
    (hl : isShapeLimitReached s d.shapeType = false)
    (hv : validateAndTrimFeature K (buildNewFeature d freshId now) s.features
            = invalidResult R msg) :
    addFeature K s d freshId now
      = ({ s with errorMessage := some msg }, false) := by
  simp [addFeature, hl, hv, invalidResult]

/-- Claim C2 as amended: for polygonal shapes A and B whose regions
overlap and where A *strictly* contains B (A contains B but B does not
contain A), proposing A over existing B yields the encloses-existing
rejection, proposing B over existing A yields the enclosed-by-existing
rejection, and in both cases `addFeature` returns `false` and commits
nothing.  (With mutual containment — identical regions — both directions
yield the encloses-existing rejection instead, see the counterexample.) -/
theorem claim_C2_amended {R : Type} (K : TurfKernel R) (A B : R)
    (hAB : K.booleanContains A B = Except.ok true)
    (hBA : K.booleanContains B A = Except.ok false)
    (hov1 : checkFeaturesOverlap K A B = true)
    (hov2 : checkFeaturesOverlap K B A = true) :
    validateAndTrimFeature K (polyFeature 2 A) [polyFeature 1 B]
      = invalidResult R enclosesMsg ∧
    validateAndTrimFeature K (polyFeature 2 B) [polyFeature 1 A]
      = invalidResult R enclosedByMsg ∧
    (addFeature K (stateWithFeatures [polyFeature 1 B]) (polyData A) 2 0).2
      = false ∧
    (addFeature K (stateWithFeatures [polyFeature 1 B]) (polyData A) 2 0).1.features
      = [polyFeature 1 B] ∧
    (addFeature K (stateWithFeatures [polyFeature 1 A]) (polyData B) 2 0).2
      = false ∧
    (addFeature K (stateWithFeatures [polyFeature 1 A]) (polyData B) 2 0).1.features
      = [polyFeature 1 A] := by
  have hloop1 : runTrimLoop K A false [B]
      = Except.error (invalidResult R enclosesMsg) := by
    simp [runTrimLoop, hov1, isFullyEnclosed, hAB]
  have hloop2 : runTrimLoop K B false [A]
      = Except.error (invalidResult R enclosedByMsg) := by
    simp [runTrimLoop, hov2, isFullyEnclosed, hAB, hBA]
  have h1 : validateAndTrimFeature K (polyFeature 2 A) [polyFeature 1 B]
      = invalidResult R enclosesMsg := by
    rw [validateAndTrim_poly, existingPolygons_single, hloop1]
  have h2 : validateAndTrimFeature K (polyFeature 2 B) [polyFeature 1 A]
      = invalidResult R enclosedByMsg := by
    rw [validateAndTrim_poly, existingPolygons_single, hloop2]
  have e3 : addFeature K (stateWithFeatures [polyFeature 1 B]) (polyData A) 2 0
      = ({ stateWithFeatures [polyFeature 1 B] with
            errorMessage := some enclosesMsg }, false) :=
    addFeature_invalid K (stateWithFeatures [polyFeature 1 B]) (polyData A)
      2 0 enclosesMsg rfl h1
  have e4 : addFeature K (stateWithFeatures [polyFeature 1 A]) (polyData B) 2 0
      = ({ stateWithFeatures [polyFeature 1 A] with
            errorMessage := some enclosedByMsg }, false) :=
    addFeature_invalid K (stateWithFeatures [polyFeature 1 A]) (polyData B)
      2 0 enclosedByMsg rfl h2
  refine ⟨h1, h2, ?_, ?_, ?_, ?_⟩
  · rw [e3]
  · rw [e3]; rfl
  · rw [e4]
  · rw [e4]; rfl

/-- Witness for the amended C2 at the discrete kernel with `A = [0, 1]`
strictly containing `B = [0]`. -/
theorem claim_C2_amended_witness :
    validateAndTrimFeature discreteKernel (polyFeature 2 [0, 1])
        [polyFeature 1 [0]]
      = invalidResult (List Int) enclosesMsg ∧
    validateAndTrimFeature discreteKernel (polyFeature 2 [0])
        [polyFeature 1 [0, 1]]
      = invalidResult (List Int) enclosedByMsg ∧
    (addFeature discreteKernel (stateWithFeatures [polyFeature 1 [0]])
        (polyData [0, 1]) 2 0).2 = false ∧
    (addFeature discreteKernel (stateWithFeatures [polyFeature 1 [0]])
        (polyData [0, 1]) 2 0).1.features = [polyFeature 1 [0]] ∧
    (addFeature discreteKernel (stateWithFeatures [polyFeature 1 [0, 1]])
        (polyData [0]) 2 0).2 = false ∧
    (addFeature discreteKernel (stateWithFeatures [polyFeature 1 [0, 1]])
        (polyData [0]) 2 0).1.features = [polyFeature 1 [0, 1]] :=
  claim_C2_amended discreteKernel [0, 1] [0] rfl rfl rfl rfl

/-- Counterexample to claim C3: a kernel whose difference throws and a
kernel whose difference is empty produce the *same* adapter return value
(`null`) from `trimPolygon`, and the same engine outcome — the failed and
empty cases are collapsed at the adapter boundary, not distinguishable by
the caller. -/
theorem claim_C3_counterexample :
    failDiffKernel.difference [0, 1] [1, 2] = Except.error () ∧
    emptyDiffKernel.difference [0, 1] [1, 2] = Except.ok none ∧
    trimPolygon failDiffKernel [0, 1] [1, 2]
      = trimPolygon emptyDiffKernel [0, 1] [1, 2] ∧
    trimPolygon failDiffKernel [0, 1] [1, 2] = none ∧
    validateAndTrimFeature failDiffKernel (polyFeature 2 [0, 1])
        [polyFeature 1 [1, 2]]
      = validateAndTrimFeature emptyDiffKernel (polyFeature 2 [0, 1])
          [polyFeature 1 [1, 2]] ∧
    validateAndTrimFeature failDiffKernel (polyFeature 2 [0, 1])
        [polyFeature 1 [1, 2]]
      = invalidResult (List Int) consumedMsg :=
  ⟨rfl, rfl, rfl, rfl, rfl, rfl⟩

/-- Claim C3 as amended: the set-difference of the adapter returns a two-way
result — a kernel failure and an empty difference are both collapsed to
`null` at the adapter boundary, and the caller maps that single `null`
value to the fully-consumed rejection. -/
theorem claim_C3_amended {R : Type} (K : TurfKernel R) (a b : R)
    (h : K.difference a b = Except.error ()
         ∨ K.difference a b = Except.ok none) :
    trimPolygon K a b = none ∧
    ∀ (flag : Bool) (rest : List R),
      checkFeaturesOverlap K a b = true →
      isFullyEnclosed K b a = false →
      isFullyEnclosed K a b = false →
      runTrimLoop K a flag (b :: rest)
        = Except.error (invalidResult R consumedMsg) := by
  have ht : trimPolygon K a b = none := by
    cases h with
    | inl h => simp [trimPolygon, h]
    | inr h => simp [trimPolygon, h]
  refine ⟨ht, ?_⟩
  intro flag rest hov h1 h2
  simp [runTrimLoop, hov, h1, h2, ht]

/-- Witness for the amended C3 at the throwing-difference kernel. -/
theorem claim_C3_amended_witness :
    trimPolygon failDiffKernel [0, 1] [1, 2] = none ∧
    runTrimLoop failDiffKernel [0, 1] false [[1, 2]]
      = Except.error (invalidResult (List Int) consumedMsg) := by
  have h := claim_C3_amended failDiffKernel [0, 1] [1, 2] (Or.inl rfl)
  exact ⟨h.1, h.2 false [] rfl rfl rfl⟩

/-- A one-feature store used to exercise `updateFeature`. -/
def stC7 : MapState (List Int) := stateWithFeatures [polyFeature 1 [0]]

/-- An update payload renaming feature 1. -/
def updC7 : MapFeatureUpdate (List Int) :=
  { geometry := none,
    properties :=
      some { id := 1, shapeType := ShapeType.polygon, createdAt := 0,
             name := some "renamed", radius := none, center := none } }

/-- Counterexample to claim C7: the public store action `updateFeature` —
an operation other than add, remove, clear and the commit-after-trim
replace — alters the `name` field of the stored shape in place (its
identity is unchanged, so it is the same accepted shape). -/
theorem claim_C7_counterexample :
    (updateFeature stC7 1 updC7).features.map
        (fun f => f.properties.name) = [some "renamed"] ∧
    stC7.features.map (fun f => f.properties.name) = [none] ∧
    (updateFeature stC7 1 updC7).features.map (fun f => f.properties.id)
      = stC7.features.map (fun f => f.properties.id) :=
  ⟨rfl, rfl, rfl⟩

/-- Claim C7 as amended: the feature collection is mutated only through
`addFeature`, `removeFeature`, `clearAllFeatures` *and* `updateFeature`;
every other public store action leaves the collection untouched, and
`updateFeature` rewrites exactly the features whose identifier matches
(each either survives unchanged or is the spread-update of a matching
feature). -/
theorem claim_C7_amended {R : Type} (s : MapState R) (idv : Nat)
    (u : MapFeatureUpdate R) (m : Option ShapeType) (lu : ShapeLimitsUpdate) :
    (setDrawingMode s m).features = s.features ∧
    (exportGeoJSON s).features = s.features ∧
    (clearError s).features = s.features ∧
    (clearSuccess s).features = s.features ∧
    (updateShapeLimits s lu).features = s.features ∧
    (clearAllFeatures s).features = [] ∧
    (∀ f ∈ s.features, f.properties.id ≠ idv →
        f ∈ (updateFeature s idv u).features) ∧
    (∀ g ∈ (updateFeature s idv u).features,
        g ∈ s.features
          ∨ ∃ f ∈ s.features, f.properties.id = idv ∧ g = applyUpdate f u) := by
  refine ⟨?_, ?_, rfl, rfl, rfl, rfl, ?_, ?_⟩
  · cases m with
    | none => rfl
    | some mm =>
      by_cases hm : isShapeLimitReached s mm = true <;> simp [setDrawingMode, hm]
  · by_cases hz : s.features.length = 0 <;> simp [exportGeoJSON, hz]
  · intro f hf hne
    simp only [updateFeature, List.mem_map]
    exact ⟨f, hf, by simp [hne]⟩
  · intro g hg
    simp only [updateFeature, List.mem_map] at hg
    rcases hg with ⟨f, hf, he⟩
    by_cases hid : f.properties.id = idv
    · right
      exact ⟨f, hf, hid, by rw [← he]; simp [hid]⟩
    · left
      rw [← he]
      simpa [hid] using hf

/-- Witness for the amended C7 at a concrete one-feature store. -/
theorem claim_C7_amended_witness :
    (clearError stC7).features = stC7.features ∧
    (clearAllFeatures stC7).features = [] :=
  ⟨(claim_C7_amended stC7 1 updC7 none
      { polygon := none, rectangle := none, circle := none,
        linestring := none }).2.2.1,
   (claim_C7_amended stC7 1 updC7 none
      { polygon := none, rectangle := none, circle := none,
        linestring := none }).2.2.2.2.2.1⟩

/-- Claim C8: `removeFeature` keeps a subsequence of the collection
(relative order preserved, every survivor byte-for-byte one of the
original features, no re-validation touching them), removes exactly the
features whose identifier matches, and is a no-op when no identifier
matches. -/
theorem claim_C8 {R : Type} (s : MapState R) (idv : Nat) :
    List.Sublist (removeFeature s idv).features s.features ∧
    ((∀ f ∈ s.features, f.properties.id ≠ idv) →
      (removeFeature s idv).features = s.features) ∧
    (∀ f ∈ s.features, f.properties.id ≠ idv →
      f ∈ (removeFeature s idv).features) ∧
    (∀ f ∈ (removeFeature s idv).features,
      f ∈ s.features ∧ f.properties.id ≠ idv) := by
  refine ⟨?_, ?_, ?_, ?_⟩
  · exact List.filter_sublist s.features
  · intro hall
    simp only [removeFeature]
    rw [List.filter_eq_self.mpr]
    intro a ha
    exact decide_eq_true (hall a ha)
  · intro f hf hne
    simp only [removeFeature, List.mem_filter]
    exact ⟨hf, decide_eq_true hne⟩
  · intro f hf
    simp only [removeFeature, List.mem_filter] at hf
    exact ⟨hf.1, of_decide_eq_true hf.2⟩

/-- A two-feature store used to exercise `removeFeature`. -/
def stC8 : MapState (List Int) :=
  stateWithFeatures [polyFeature 1 [0], polyFeature 2 [5]]

/-- Witness for C8: removing id 2 keeps feature 1 untouched as a
subsequence, and removing an absent id 3 is a no-op. -/
theorem claim_C8_witness :
    polyFeature 1 [0] ∈ (removeFeature stC8 2).features ∧
    List.Sublist (removeFeature stC8 2).features stC8.features ∧
    (removeFeature stC8 3).features = stC8.features := by
  refine ⟨(claim_C8 stC8 2).2.2.1 (polyFeature 1 [0]) ?_ (by decide),
          (claim_C8 stC8 2).1, (claim_C8 stC8 3).2.1 ?_⟩
  · show polyFeature 1 [0] ∈ [polyFeature 1 [0], polyFeature 2 [5]]
    simp
  · intro f hf
    have hf2 : f ∈ [polyFeature 1 [0], polyFeature 2 [5]] := hf
    simp only [List.mem_cons, List.not_mem_nil, or_false] at hf2
    rcases hf2 with rfl | rfl <;> decide

/-- A circle-kind feature that lacks both circle properties but carries a
polygonal geometry. -/
def circBadFeat : MapFeature (List Int) :=
  { geometry := Geometry.polygonal [0],
    properties :=
      { id := 2, shapeType := ShapeType.circle, createdAt := 0,
        name := none, radius := none, center := none } }

/-- Counterexample to claim C9: a circle-kind candidate lacking both
`center` and `radius` whose geometry happens to be polygonal is *not*
short-circuited: `getFeatureAsPolygon` falls through to the geometry-type
branch and returns the polygon, and the candidate is then rejected by the
enclosure check against an existing shape — not accepted unchanged. -/
theorem claim_C9_counterexample :
    circBadFeat.properties.shapeType = ShapeType.circle ∧
    circBadFeat.properties.center = none ∧
    circBadFeat.properties.radius = none ∧
    getFeatureAsPolygon discreteKernel circBadFeat = some [0] ∧
    validateAndTrimFeature discreteKernel circBadFeat [polyFeature 1 [0, 1]]
      = invalidResult (List Int) enclosedByMsg ∧
    invalidResult (List Int) enclosedByMsg ≠ validResult (List Int) := by
  refine ⟨rfl, rfl, rfl, rfl, rfl, ?_⟩
  decide

/-- Claim C9 as amended: a candidate of polygon or rectangle kind whose
geometry is neither `Polygon` nor `MultiPolygon`, or a candidate of
circle kind lacking a center or a radius *whose geometry is also not
polygonal* (as the circles of the app are, with `Point` geometry), is accepted
unchanged with no overlap, enclosure, or trimming check:
`getFeatureAsPolygon` returns `null` and validation short-circuits,
independently of the existing collection and kernel. -/
theorem claim_C9_amended {R : Type} (K : TurfKernel R) (f : MapFeature R)
    (fs : List (MapFeature R))
    (hgeom : geomAsPolygon f.geometry = none)
    (h : (f.properties.shapeType = ShapeType.polygon
            ∨ f.properties.shapeType = ShapeType.rectangle)
         ∨ (f.properties.shapeType = ShapeType.circle
            ∧ (f.properties.center = none ∨ f.properties.radius = none))) :
    getFeatureAsPolygon K f = none ∧
    validateAndTrimFeature K f fs = validResult R := by
  have hne : ¬ f.properties.shapeType = ShapeType.linestring := by
    rcases h with (h | h) | ⟨h, _⟩ <;> simp [h]
  have hg : getFeatureAsPolygon K f = none := by
    rcases h with (h | h) | ⟨hc, hcr⟩
    · simp [getFeatureAsPolygon, h, hgeom]
    · simp [getFeatureAsPolygon, h, hgeom]
    · rcases hcr with hr | hr
      · cases h2 : f.properties.radius <;>
          simp [getFeatureAsPolygon, hc, hr, h2, hgeom]
      · cases h2 : f.properties.center <;>
          simp [getFeatureAsPolygon, hc, hr, h2, hgeom]
  exact ⟨hg, by simp [validateAndTrimFeature, hne, hg]⟩

/-- A rectangle-kind feature with a `Point` geometry. -/
def rectBadFeat : MapFeature (List Int) :=
  { geometry := Geometry.pointGeom,
    properties :=
      { id := 7, shapeType := ShapeType.rectangle, createdAt := 0,
        name := none, radius := none, center := none } }

/-- Witness for the amended C9: a rectangle-kind feature with `Point`
geometry passes validation untouched over a non-empty collection. -/
theorem claim_C9_amended_witness :
    getFeatureAsPolygon discreteKernel rectBadFeat = none ∧
    validateAndTrimFeature discreteKernel rectBadFeat [polyFeature 1 [0, 1]]
      = validResult (List Int) :=
  claim_C9_amended discreteKernel rectBadFeat [polyFeature 1 [0, 1]] rfl
    (Or.inl (Or.inr rfl))

/-- Appending one feature increments exactly the count of its kind. -/
theorem countFor_append_single {R : Type} (fs : List (MapFeature R))
    (f : MapFeature R) (t : ShapeType) :
    countFor (getShapeCountsOf (fs ++ [f])) t
      = countFor (getShapeCountsOf fs) t
        + (if f.properties.shapeType = t then 1 else 0) := by
  cases t <;> cases hs : f.properties.shapeType <;>
    simp [getShapeCountsOf, countFor, List.filter_append, hs]

/-- Filtering the collection can only decrease each per-kind count. -/
theorem countFor_filter_le {R : Type} (fs : List (MapFeature R))
    (p : MapFeature R → Bool) (t : ShapeType) :
    countFor (getShapeCountsOf (fs.filter p)) t
      ≤ countFor (getShapeCountsOf fs) t := by
  cases t <;>
    simp only [getShapeCountsOf, countFor] <;>
    exact List.Sublist.length_le
      (List.Sublist.filter _ (List.filter_sublist fs))

/-- Every early-exit result of the trim loop is one of the three
rejections: invalid, with no trimmed feature attached. -/
theorem runTrimLoop_error_shape {R : Type} (K : TurfKernel R) (l : List R) :
    ∀ (current : R) (flag : Bool) (res : OverlapValidationResult R),
      runTrimLoop K current flag l = Except.error res →
      res.trimmedFeature = none ∧ res.isValid = false := by
  induction l with
  | nil =>
    intro current flag res h
    simp [runTrimLoop] at h
  | cons e rest ih =>
    intro current flag res h
    simp only [runTrimLoop] at h
    split at h
    · exact ih current flag res h
    · split at h
      · rw [Except.error.injEq] at h
        subst h
        exact ⟨rfl, rfl⟩
      · split at h
        · rw [Except.error.injEq] at h
          subst h
          exact ⟨rfl, rfl⟩
        · split at h
          · rw [Except.error.injEq] at h
            subst h
            exact ⟨rfl, rfl⟩
          · exact ih _ true res h

/-- A trimmed feature handed back by `validateAndTrimFeature` carries the
properties of the candidate verbatim (only the geometry is replaced). -/
theorem validateAndTrim_trimmed_props {R : Type} (K : TurfKernel R)
    (nf : MapFeature R) (fs : List (MapFeature R)) (tf : MapFeature R)
    (h : (validateAndTrimFeature K nf fs).trimmedFeature = some tf) :
    tf.properties = nf.properties := by
  unfold validateAndTrimFeature at h
  split at h
  · simp [validResult] at h
  · split at h
    · simp [validResult] at h
    · rename_i newPolygon heq
      split at h
      · rename_i res hres
        rw [(runTrimLoop_error_shape K _ _ _ res hres).1] at h
        cases h
      · rename_i pr hpr
        split at h
        · rw [Option.some.injEq] at h
          subst h
          rfl
        · simp [validResult] at h

/-- The per-kind count bound: the count of every kind is at most its
configured limit. -/
def boundInv {R : Type} (s : MapState R) : Prop :=
  ∀ t, countFor (getShapeCounts s) t ≤ limitFor s.shapeLimits t

/-- `boundInv` only looks at the features and the limits. -/
theorem boundInv_congr {R : Type} {s s' : MapState R}
    (hf : s'.features = s.features) (hl : s'.shapeLimits = s.shapeLimits)
    (h : boundInv s) : boundInv s' := by
  intro t
  have := h t
  simpa [boundInv, getShapeCounts, hf, hl] using this

/-- Claim C10 as amended: with the limit configuration untouched, the
per-kind count bound is an invariant of `addFeature`, `removeFeature` and
`clearAllFeatures` (none of which changes the limits) — but it is *not*
preserved by every store operation: the public `updateFeature` action can
change the kind of a shape and push a count past its limit (see the
counterexample). -/
theorem claim_C10_amended {R : Type} (K : TurfKernel R) (s : MapState R)
    (d : FeatureData R) (freshId now idv : Nat) (h : boundInv s) :
    ((addFeature K s d freshId now).1.shapeLimits = s.shapeLimits ∧
      boundInv (addFeature K s d freshId now).1) ∧
    ((removeFeature s idv).shapeLimits = s.shapeLimits ∧
      boundInv (removeFeature s idv)) ∧
    ((clearAllFeatures s).shapeLimits = s.shapeLimits ∧
      boundInv (clearAllFeatures s)) := by
  refine ⟨?_, ⟨rfl, ?_⟩, ⟨rfl, ?_⟩⟩
  · by_cases hl : isShapeLimitReached s d.shapeType = true
    · constructor
      · simp [addFeature, hl]
      · refine boundInv_congr ?_ ?_ h <;> simp [addFeature, hl]
    · by_cases hv :
        (validateAndTrimFeature K (buildNewFeature d freshId now)
          s.features).isValid = false
      · constructor
        · simp [addFeature, hl, hv]
        · refine boundInv_congr ?_ ?_ h <;> simp [addFeature, hl, hv]
      · have hfeat : (addFeature K s d freshId now).1.features
            = s.features
              ++ [(validateAndTrimFeature K (buildNewFeature d freshId now)
                    s.features).trimmedFeature.getD
                   (buildNewFeature d freshId now)] := by
          simp [addFeature, hl, hv]
        have hlim : (addFeature K s d freshId now).1.shapeLimits
            = s.shapeLimits := by
          simp [addFeature, hl, hv]
        have hcount : countFor (getShapeCounts s) d.shapeType
            < limitFor s.shapeLimits d.shapeType := by
          simp only [isShapeLimitReached, decide_eq_true_eq] at hl
          omega
        have hkind :
            ((validateAndTrimFeature K (buildNewFeature d freshId now)
                s.features).trimmedFeature.getD
              (buildNewFeature d freshId now)).properties.shapeType
              = d.shapeType := by
          cases hc : (validateAndTrimFeature K (buildNewFeature d freshId now)
              s.features).trimmedFeature with
          | none => simp [hc, buildNewFeature]
          | some tf =>
            have := validateAndTrim_trimmed_props K
              (buildNewFeature d freshId now) s.features tf hc
            simp [hc, this, buildNewFeature]
        refine ⟨hlim, ?_⟩
        intro t
        rw [hlim]
        show countFor (getShapeCountsOf (addFeature K s d freshId now).1.features) t
          ≤ limitFor s.shapeLimits t
        rw [hfeat, countFor_append_single, hkind]
        by_cases ht : d.shapeType = t
        · subst ht
          simpa using hcount
        · have := h t
          simp [ht]
          exact this
  · intro t
    exact le_trans (countFor_filter_le s.features _ t) (h t)
  · intro t
    cases t <;> simp [clearAllFeatures, getShapeCounts, getShapeCountsOf, countFor]

/-- A rectangle-kind feature with region `g`. -/
def rectFeature (idv : Nat) (g : List Int) : MapFeature (List Int) :=
  { geometry := Geometry.polygonal g,
    properties :=
      { id := idv, shapeType := ShapeType.rectangle, createdAt := 0,
        name := none, radius := none, center := none } }

/-- A store at its polygon limit (limit 1, one polygon) that also holds
one rectangle. -/
def stC10 : MapState (List Int) :=
  { features := [polyFeature 1 [0], rectFeature 2 [5]],
    drawingMode := none,
    shapeLimits := { polygon := 1, rectangle := 1, circle := 5,
                     linestring := 20 },
    errorMessage := none,
    successMessage := none }

/-- An update payload that turns feature 2 into a polygon-kind shape. -/
def updC10 : MapFeatureUpdate (List Int) :=
  { geometry := none,
    properties :=
      some { id := 2, shapeType := ShapeType.polygon, createdAt := 0,
             name := none, radius := none, center := none } }

/-- Counterexample to claim C10: the bound holds in `stC10` and the limit
configuration is untouched, yet the store operation `updateFeature` —
changing the kind of feature 2 from rectangle to polygon — drives the polygon
count to 2 past its limit of 1, so the bound is not an invariant
preserved by every store operation. -/
theorem claim_C10_counterexample :
    (∀ t, countFor (getShapeCounts stC10) t ≤ limitFor stC10.shapeLimits t) ∧
    (updateFeature stC10 2 updC10).shapeLimits = stC10.shapeLimits ∧
    countFor (getShapeCounts (updateFeature stC10 2 updC10))
        ShapeType.polygon = 2 ∧
    limitFor (updateFeature stC10 2 updC10).shapeLimits ShapeType.polygon
      = 1 ∧
    ¬ (∀ t, countFor (getShapeCounts (updateFeature stC10 2 updC10)) t
          ≤ limitFor (updateFeature stC10 2 updC10).shapeLimits t) := by
  refine ⟨?_, rfl, rfl, rfl, ?_⟩
  · intro t
    cases t <;> decide
  · intro hall
    exact absurd (hall ShapeType.polygon) (by decide)

/-- Witness for the amended C10 at a concrete one-polygon store with
default limits: add, remove and clear all keep the bound. -/
theorem claim_C10_amended_witness :
    boundInv (addFeature discreteKernel
      (stateWithFeatures [polyFeature 1 [0]]) (polyData [5]) 2 0).1 ∧
    boundInv (removeFeature (stateWithFeatures [polyFeature 1 [0]]) 1) ∧
    boundInv (clearAllFeatures (stateWithFeatures [polyFeature 1 [0]])) := by
  have h := claim_C10_amended discreteKernel
    (stateWithFeatures [polyFeature 1 [0]]) (polyData [5]) 2 0 1
    (by intro t; cases t <;> decide)
  exact ⟨h.1.2, h.2.1.2, h.2.2.2⟩
